import Mathlib

/-!
Verification development for the offline fitness-test analysis pipeline
(`src/mobile-app/src/services/ml/offlineAnalysis.js` and
`src/mobile-app/src/services/ml/cheatDetection.js`).

Numbers are modelled as exact rationals (`ℚ`).  JavaScript quirks that are
visible to the verified claims are kept: the `x || 90` idiom treats the
number `0` as falsy, so it is modelled by an explicit test against `0`;
`Math.floor(n / 2)` on a list length is natural-number division.  JavaScript
`array.reduce` with no initial value throws on an empty array; the claims
below are settled on non-empty inputs, where the rational model (division by
`0` yielding `0` never being reached) agrees with the source.
-/

namespace SportsAnalysis

/-! ## cheatDetection.js: data model of the per-check results -/

/-- Per-frame image statistics carried by a simulated frame
(`simulateFrameData`, cheatDetection.js).  The color distribution is
flattened to its `variance` component, the only part read by the checks. -/
structure FrameData where
  brightness : ℚ
  contrast : ℚ
  edges : ℚ
  motion : ℚ
  colorVariance : ℚ
  deriving DecidableEq, Repr

/-- A sampled video frame as consumed by the cheat-detection checks. -/
structure CDFrame where
  id : ℕ
  timestamp : ℚ
  data : FrameData
  deriving DecidableEq, Repr

/-- Result of `checkBrightnessConsistency` (cheatDetection.js lines 124-135). -/
structure BrightnessCheck where
  isConsistent : Bool
  variance : ℚ
  avgBrightness : ℚ
  suspiciousFrames : ℕ
  deriving DecidableEq, Repr

/-- Result of `checkFrameRateConsistency` (cheatDetection.js lines 137-154). -/
structure FrameRateCheck where
  isConsistent : Bool
  variance : ℚ
  avgFrameTime : ℚ
  suspiciousDrops : ℕ
  deriving DecidableEq, Repr

/-- Result of `checkResolutionConsistency` (cheatDetection.js lines 156-163). -/
structure ResolutionCheck where
  isConsistent : Bool
  resolutionChanges : ℕ
  deriving DecidableEq, Repr

/-- Result of `checkMotionConsistency` (cheatDetection.js lines 165-178). -/
structure MotionCheck where
  isConsistent : Bool
  avgMotion : ℚ
  expectedMotion : ℚ
  suspiciousSpikes : ℕ
  deriving DecidableEq, Repr

/-- Result of `checkColorConsistency` (cheatDetection.js lines 192-201). -/
structure ColorCheck where
  isConsistent : Bool
  avgVariance : ℚ
  suspiciousChanges : ℕ
  deriving DecidableEq, Repr

/-- Aggregate of `analyzeFrames` (cheatDetection.js lines 112-122). -/
structure FrameAnalysis where
  brightnessConsistency : BrightnessCheck
  frameRateConsistency : FrameRateCheck
  resolutionConsistency : ResolutionCheck
  motionConsistency : MotionCheck
  colorConsistency : ColorCheck
  deriving DecidableEq, Repr

/-- Result of `detectCompressionArtifacts` (cheatDetection.js lines 212-222). -/
structure CompressionCheck where
  hasArtifacts : Bool
  avgEdges : ℚ
  confidence : ℚ
  deriving DecidableEq, Repr

/-- Result of `detectEdgeInconsistencies` (cheatDetection.js lines 224-234). -/
structure EdgeCheck where
  hasInconsistencies : Bool
  variance : ℚ
  confidence : ℚ
  deriving DecidableEq, Repr

/-- Result of `checkMetadataAnomalies` (cheatDetection.js lines 236-243). -/
structure MetadataCheck where
  hasAnomalies : Bool
  confidence : ℚ
  deriving DecidableEq, Repr

/-- Result of `detectSplicing` (cheatDetection.js lines 245-255); splice
points are kept as the frame indices of the abrupt changes. -/
structure SplicingCheck where
  hasSplicing : Bool
  splicePoints : List ℕ
  confidence : ℚ
  deriving DecidableEq, Repr

/-- Aggregate of `checkVideoManipulation` (cheatDetection.js lines 203-210). -/
structure ManipulationCheck where
  compressionArtifacts : CompressionCheck
  edgeInconsistencies : EdgeCheck
  metadataAnomalies : MetadataCheck
  splicingDetection : SplicingCheck
  deriving DecidableEq, Repr

/-- Result of `checkPatternConsistency` (cheatDetection.js lines 290-301). -/
structure PatternCheck where
  isConsistent : Bool
  expectedPattern : String
  actualPattern : String
  confidence : ℚ
  deriving DecidableEq, Repr

/-- Aggregate of `analyzeMovementPatterns` (cheatDetection.js lines 272-281);
the repetition/speed/acceleration sub-results are kept only through the
fields actually read downstream (none are read by `combineAnalysisResults`),
as the truth-values of their consistency verdicts. -/
structure MovementPatternAnalysis where
  patternConsistency : PatternCheck
  speedConsistent : Bool
  accelerationNatural : Bool
  deriving DecidableEq, Repr

/-- Result of `detectMultiplePeople` (cheatDetection.js lines 439-447). -/
structure MultiplePeopleCheck where
  hasMultiplePeople : Bool
  personCount : ℕ
  confidence : ℚ
  deriving DecidableEq, Repr

/-- Result of `detectSuspiciousObjects` (cheatDetection.js lines 449-456). -/
structure ObjectCheck where
  hasSuspiciousObjects : Bool
  confidence : ℚ
  deriving DecidableEq, Repr

/-- Result of `analyzeAudioForAssistance` (cheatDetection.js lines 458-465). -/
structure AudioCheck where
  hasExternalAudio : Bool
  confidence : ℚ
  deriving DecidableEq, Repr

/-- Result of `checkEnvironmentConsistency` (cheatDetection.js lines 467-477). -/
structure EnvironmentCheck where
  isConsistent : Bool
  avgVariance : ℚ
  confidence : ℚ
  deriving DecidableEq, Repr

/-- Aggregate of `checkExternalAssistance` (cheatDetection.js lines 430-437). -/
structure AssistanceCheck where
  multiplePeople : MultiplePeopleCheck
  objectDetection : ObjectCheck
  audioAnalysis : AudioCheck
  environmentalConsistency : EnvironmentCheck
  deriving DecidableEq, Repr

/-- Output of `combineAnalysisResults` (cheatDetection.js lines 479-535). -/
structure CombinedResults where
  suspicionScore : ℚ
  issues : List String
  recommendations : List String
  deriving DecidableEq, Repr

/-! ## cheatDetection.js: the numeric helpers and checks -/

/-- `calculateVariance(values, mean = null)` (cheatDetection.js lines
537-541).  The JavaScript body reads `const avg = mean || ...`, so a passed
mean of `0` (falsy) makes it recompute the average, which the model keeps. -/
def calculateVariance (values : List ℚ) (mean : Option ℚ) : ℚ :=
  let avg : ℚ :=
    match mean with
    | some m => if m = 0 then values.sum / (values.length : ℚ) else m
    | none => values.sum / (values.length : ℚ)
  ((values.map (fun v => (v - avg) * (v - avg))).sum) / (values.length : ℚ)

/-- `checkBrightnessConsistency(frames)` (cheatDetection.js lines 124-135):
consistency is decided by the brightness variance alone; frames deviating
more than `0.3` from the mean are merely counted into `suspiciousFrames`. -/
def checkBrightnessConsistency (frames : List CDFrame) : BrightnessCheck :=
  let brightnessValues := frames.map (fun f => f.data.brightness)
  let avgBrightness := brightnessValues.sum / (brightnessValues.length : ℚ)
  { isConsistent := decide (calculateVariance brightnessValues (some avgBrightness) < 1/10)
    variance := calculateVariance brightnessValues (some avgBrightness)
    avgBrightness := avgBrightness
    suspiciousFrames :=
      (brightnessValues.filter (fun b => decide (3/10 < |b - avgBrightness|))).length }

/-- The raw (pre-clamp) suspicion total accumulated by
`combineAnalysisResults` (cheatDetection.js lines 479-528): weights
0.15, 0.10, 0.20, 0.30, 0.15, 0.25, 0.10 in source order. -/
def rawSuspicionTotal (fa : FrameAnalysis) (mc : ManipulationCheck)
    (mp : MovementPatternAnalysis) (ac : AssistanceCheck) : ℚ :=
  (if fa.brightnessConsistency.isConsistent = true then 0 else 15/100) +
  (if fa.frameRateConsistency.isConsistent = true then 0 else 10/100) +
  (if mc.compressionArtifacts.hasArtifacts = true then 20/100 else 0) +
  (if mc.splicingDetection.hasSplicing = true then 30/100 else 0) +
  (if mp.patternConsistency.isConsistent = true then 0 else 15/100) +
  (if ac.multiplePeople.hasMultiplePeople = true then 25/100 else 0) +
  (if ac.environmentalConsistency.isConsistent = true then 0 else 10/100)

/-- `combineAnalysisResults` (cheatDetection.js lines 479-535): sums the
weights of the triggered checks, collects the matching issue and
recommendation strings, and clamps the score with `Math.min(1, total)`. -/
def combineAnalysisResults (fa : FrameAnalysis) (mc : ManipulationCheck)
    (mp : MovementPatternAnalysis) (ac : AssistanceCheck) : CombinedResults :=
  let issues : List String :=
    (if fa.brightnessConsistency.isConsistent = true then [] else
      ["Inconsistent lighting detected"]) ++
    (if fa.frameRateConsistency.isConsistent = true then [] else
      ["Frame rate inconsistencies detected"]) ++
    (if mc.compressionArtifacts.hasArtifacts = true then
      ["Video compression artifacts detected"] else []) ++
    (if mc.splicingDetection.hasSplicing = true then
      ["Video splicing detected"] else []) ++
    (if mp.patternConsistency.isConsistent = true then [] else
      ["Movement pattern inconsistencies"]) ++
    (if ac.multiplePeople.hasMultiplePeople = true then
      ["Multiple people detected in video"] else []) ++
    (if ac.environmentalConsistency.isConsistent = true then [] else
      ["Environment inconsistencies detected"])
  let recommendations : List String :=
    (if fa.brightnessConsistency.isConsistent = true then [] else
      ["Ensure consistent lighting throughout the recording"]) ++
    (if fa.frameRateConsistency.isConsistent = true then [] else
      ["Record in a single continuous take"]) ++
    (if mc.compressionArtifacts.hasArtifacts = true then
      ["Avoid editing or re-compressing the video"] else []) ++
    (if mc.splicingDetection.hasSplicing = true then
      ["Record the entire test in one continuous take"] else []) ++
    (if mp.patternConsistency.isConsistent = true then [] else
      ["Follow the test instructions carefully"]) ++
    (if ac.multiplePeople.hasMultiplePeople = true then
      ["Ensure only the test taker is visible"] else []) ++
    (if ac.environmentalConsistency.isConsistent = true then [] else
      ["Record in a single location"])
  { suspicionScore := min 1 (rawSuspicionTotal fa mc mp ac)
    issues := issues
    recommendations :=
      if recommendations.isEmpty = true then
        ["Video analysis completed successfully"]
      else recommendations }

/-! ## offlineAnalysis.js: pose data and repetition counting -/

/-- The body angles read by phase identification (`calculateBodyAngles`
fills a dictionary; only `leftKnee` and `leftElbow` are read by
`identifyRepetitivePhases`).  A missing entry is `none`. -/
structure BodyAngles where
  leftKnee : Option ℚ
  leftElbow : Option ℚ
  deriving DecidableEq, Repr, Inhabited

/-- One analysed pose frame as consumed by the phase and timing code
(`analyzePoses` output): its timestamp in milliseconds and body angles. -/
structure PoseFrame where
  timestamp : ℚ
  bodyAngles : BodyAngles
  deriving DecidableEq, Repr, Inhabited

/-- A movement phase record as pushed by `identifyRepetitivePhases`
(offlineAnalysis.js lines 413-445); `duration` is in seconds (the source
divides a millisecond difference by 1000). -/
structure MovementPhase where
  phase : String
  startFrame : ℕ
  endFrame : ℕ
  duration : ℚ
  deriving DecidableEq, Repr

/-- The JavaScript `angle || 90` idiom (`currPose.bodyAngles[angleKey] || 90`):
a missing angle, and also a stored angle of exactly `0` (falsy), become 90. -/
def jsAngleOr90 (a : Option ℚ) : ℚ :=
  match a with
  | none => 90
  | some v => if v = 0 then 90 else v

/-- The tracked angle of frame `i`: `leftKnee` for sit-ups, `leftElbow`
otherwise, with the `|| 90` default (offlineAnalysis.js lines 420-421). -/
def repAngleOf (poseData : List PoseFrame) (testType : String) (i : ℕ) : ℚ :=
  jsAngleOr90 (if testType = "sit-ups"
    then (poseData.getD i default).bodyAngles.leftKnee
    else (poseData.getD i default).bodyAngles.leftElbow)

/-- One iteration of the loop body of `identifyRepetitivePhases`
(offlineAnalysis.js lines 418-442), acting on the state
`(isUpPhase, phaseStart, phases)` at loop index `i`. -/
def repStep (poseData : List PoseFrame) (testType : String)
    (st : Bool × ℕ × List MovementPhase) (i : ℕ) : Bool × ℕ × List MovementPhase :=
  let isUpPhase := st.1
  let phaseStart := st.2.1
  let phases := st.2.2
  let angle := repAngleOf poseData testType i
  let pushedDuration :=
    ((poseData.getD i default).timestamp -
      (poseData.getD phaseStart default).timestamp) / 1000
  if isUpPhase = true ∧ angle < 60 then
    (false, i, phases ++ [⟨"down", phaseStart, i, pushedDuration⟩])
  else if isUpPhase = false ∧ 120 < angle then
    (true, i, phases ++ [⟨"up", phaseStart, i, pushedDuration⟩])
  else
    st

/-- `identifyRepetitivePhases(poseData, testType)` (offlineAnalysis.js lines
413-445): iterate the loop body for `i = 1 .. poseData.length - 1`,
starting in the up phase with `phaseStart = 0` and no phases. -/
def identifyRepetitivePhases (poseData : List PoseFrame) (testType : String) :
    List MovementPhase :=
  (((List.range poseData.length).drop 1).foldl (repStep poseData testType)
    (true, 0, [])).2.2

/-- `countRepetitiveMovements(poseData, testType)` (offlineAnalysis.js lines
467-470): `Math.floor(phases.length / 2)`. -/
def countRepetitiveMovements (poseData : List PoseFrame) (testType : String) : ℕ :=
  (identifyRepetitivePhases poseData testType).length / 2

/-- `countRepetitions(poseData, testType)` (offlineAnalysis.js lines
459-465): cyclic kinds are counted; every other kind reports `1`. -/
def countRepetitions (poseData : List PoseFrame) (testType : String) : ℕ :=
  if (["sit-ups", "push-ups"].contains testType) = true then
    countRepetitiveMovements poseData testType
  else 1

/-! ## offlineAnalysis.js: quality banding, timing, confidence -/

/-- The qualitative quality band of `assessMovementQuality`
(offlineAnalysis.js line 485):
`overallScore > 0.8 ? excellent : overallScore > 0.6 ? good : needs-improvement`. -/
def assessMovementQualityBand (overallScore : ℚ) : String :=
  if 8/10 < overallScore then "excellent"
  else if 6/10 < overallScore then "good"
  else "needs-improvement"

/-- The `expectedDurations` table of `assessTiming` (offlineAnalysis.js lines
574-582), in milliseconds, with the `|| 10000` fallback for other kinds. -/
def expectedDurations (testType : String) : ℚ :=
  if testType = "vertical-jump" then 2000
  else if testType = "sit-ups" then 30000
  else if testType = "push-ups" then 30000
  else if testType = "shuttle-run" then 20000
  else if testType = "endurance-run" then 180000
  else 10000

/-- `poseData[poseData.length - 1].timestamp - poseData[0].timestamp`
(offlineAnalysis.js line 572); an empty sequence (on which the source would
fault) is modelled with timestamp `0` at both ends. -/
def totalDurationOf (poseData : List PoseFrame) : ℚ :=
  (poseData.getLast?.elim 0 (fun p => p.timestamp)) -
    (poseData.head?.elim 0 (fun p => p.timestamp))

/-- `assessTiming(poseData, testType)` (offlineAnalysis.js lines 570-586):
`ratio > 0.5 && ratio < 2.0 ? 1.0 : 0.8`. -/
def assessTiming (poseData : List PoseFrame) (testType : String) : ℚ :=
  if 1/2 < totalDurationOf poseData / expectedDurations testType ∧
      totalDurationOf poseData / expectedDurations testType < 2 then 1
  else 8/10

/-! ## detectCheatAttempts and the result compiler -/

/-- The bundle of the four stage outputs fed to `combineAnalysisResults` by
`detectCheatAttempts` (cheatDetection.js lines 13-51). -/
structure CheatStageData where
  frameAnalysis : FrameAnalysis
  manipulationCheck : ManipulationCheck
  movementPatternAnalysis : MovementPatternAnalysis
  assistanceCheck : AssistanceCheck
  deriving DecidableEq, Repr

/-- The value returned by `detectCheatAttempts` (cheatDetection.js lines
40-51 on success, 55-61 on an internal error).  `detailedAnalysis` is the
echoed stage data (absent on the error path); `errorMessage` models the
`error` field added only by the catch clause. -/
structure CheatResult where
  isSuspicious : Bool
  suspicionScore : ℚ
  detectedIssues : List String
  recommendations : List String
  detailedAnalysis : Option CheatStageData
  errorMessage : Option String
  deriving DecidableEq, Repr

/-- `this.cheatThreshold` (cheatDetection.js line 9). -/
def cheatThreshold : ℚ := 7/10

/-- `detectCheatAttempts(videoUri, testType)` (cheatDetection.js lines
13-63).  Steps 1-5 of its try block (frame extraction and the four
analyses) are modelled as a single fallible stage producing the combine
inputs; the catch clause returns the fixed fail-open record. -/
def detectCheatAttempts (stages : Except String CheatStageData) : CheatResult :=
  match stages with
  | Except.ok s =>
    let finalResults := combineAnalysisResults s.frameAnalysis s.manipulationCheck
      s.movementPatternAnalysis s.assistanceCheck
    { isSuspicious := decide (cheatThreshold < finalResults.suspicionScore)
      suspicionScore := finalResults.suspicionScore
      detectedIssues := finalResults.issues
      recommendations := finalResults.recommendations
      detailedAnalysis := some s
      errorMessage := none }
  | Except.error e =>
    { isSuspicious := false
      suspicionScore := 0
      detectedIssues := ["Analysis failed"]
      recommendations := ["Please try recording again"]
      detailedAnalysis := none
      errorMessage := some e }

/-- The `performanceMetrics` record built by `calculatePerformance`
(offlineAnalysis.js lines 615-627), through the fields read downstream. -/
structure PerformanceMetrics where
  repetitionCount : ℕ
  movementQuality : ℚ
  totalDuration : ℚ
  performanceScore : ℚ
  deriving DecidableEq, Repr

/-- `calculateConfidence(performanceMetrics, cheatAnalysis)`
(offlineAnalysis.js lines 768-782): base 0.8, minus 0.3 if suspicious, plus
0.1 if `movementQuality > 0.8` (strict), clamped into `[0, 1]`. -/
def calculateConfidence (performanceMetrics : PerformanceMetrics)
    (cheatAnalysis : CheatResult) : ℚ :=
  let confidence : ℚ := 8/10
  let confidence := if cheatAnalysis.isSuspicious = true then confidence - 3/10 else confidence
  let confidence :=
    if 8/10 < performanceMetrics.movementQuality then confidence + 1/10 else confidence
  max 0 (min 1 confidence)

/-- The `movementAnalysis` record of `analyzeMovement` (offlineAnalysis.js
lines 330-342), through the fields echoed into the compiled result. -/
structure MovementAnalysis where
  totalFrames : ℕ
  avgPoseScore : ℚ
  repetitionCount : ℕ
  movementQualityOverall : ℚ
  deriving DecidableEq, Repr

/-- The `benchmarking` record of `performBenchmarking` (offlineAnalysis.js
lines 696-708), through the fields echoed into the compiled result. -/
structure BenchmarkingInfo where
  ageGroup : String
  gender : String
  userScore : ℚ
  deriving DecidableEq, Repr

/-- The successful result object compiled by `analyzeVideoOffline` (Step 7,
offlineAnalysis.js lines 151-161).  `timestamp` and `deviceInfoTimestamp`
are the two `new Date().toISOString()` reads. -/
structure AnalysisResults where
  testType : String
  performanceMetrics : PerformanceMetrics
  movementAnalysis : MovementAnalysis
  cheatAnalysis : CheatResult
  benchmarking : BenchmarkingInfo
  confidence : ℚ
  recommendations : List String
  timestamp : String
  deviceInfoTimestamp : String
  deriving DecidableEq, Repr

/-- The object built by `generateFallbackResults` (offlineAnalysis.js lines
823-846), flattened field by field. -/
structure FallbackResults where
  testType : String
  repetitionCount : ℕ
  movementQuality : ℚ
  performanceScore : ℚ
  movementAnalysisError : String
  cheatIsSuspicious : Bool
  cheatSuspicionScore : ℚ
  benchmarkingError : String
  confidence : ℚ
  recommendations : List String
  fallback : Bool
  deriving DecidableEq, Repr

/-- `generateFallbackResults(videoUri, testType)` (offlineAnalysis.js lines
823-846). -/
def generateFallbackResults (_videoUri testType : String) : FallbackResults :=
  { testType := testType
    repetitionCount := 0
    movementQuality := 0
    performanceScore := 0
    movementAnalysisError := "Analysis failed"
    cheatIsSuspicious := false
    cheatSuspicionScore := 0
    benchmarkingError := "Benchmarking unavailable"
    confidence := 0
    recommendations := ["Please try recording again with better lighting and camera angle"]
    fallback := true }

/-- What `analyzeVideoOffline` hands back to its caller: either the compiled
results object, or (from the catch clause, offlineAnalysis.js lines 169-176)
an error record `{error: true, message, fallbackResults}`. -/
inductive AnalysisOutcome where
  | success (results : AnalysisResults)
  | failure (message : String) (fallbackResults : FallbackResults)
  deriving DecidableEq, Repr

/-- `this.supportedTests` (offlineAnalysis.js lines 11-22). -/
def supportedTests : List String :=
  ["vertical-jump", "sit-ups", "push-ups", "shuttle-run", "endurance-run",
   "height-weight", "standing-broad-jump", "50m-sprint", "600m-run",
   "medicine-ball-throw"]

/-- The cache key `videoUri-testType-JSON.stringify(userProfile)`
(offlineAnalysis.js line 121); the serialized profile is a string input. -/
def cacheKeyOf (videoUri testType userProfile : String) : String :=
  videoUri ++ "-" ++ testType ++ "-" ++ userProfile

/-- The analysis cache (`this.analysisCache`), as key/value pairs in
insertion order. -/
abbrev AnalysisCache := List (String × AnalysisResults)

/-- `this.maxCacheSize` (offlineAnalysis.js line 10). -/
def maxCacheSize : ℕ := 100

/-- `setCache(key, value)` (offlineAnalysis.js lines 848-856): evict the
oldest entry at capacity, then append. -/
def setCache (cache : AnalysisCache) (key : String) (value : AnalysisResults) :
    AnalysisCache :=
  (if maxCacheSize ≤ cache.length then cache.drop 1 else cache) ++ [(key, value)]

/-- The hidden and fallible inputs of one run of `analyzeVideoOffline`: the
outcome of each internal stage of its try block (any of which may throw,
modelled as `Except.error`), and the wall-clock reading `nowIso`.  The
cheat stage feeds `detectCheatAttempts`, which itself never throws.
`recommendations` abstracts `generateRecommendations` output. -/
structure OfflineEnv where
  frames : Except String (List CDFrame)
  poses : Except String (List PoseFrame)
  movement : Except String MovementAnalysis
  performance : Except String PerformanceMetrics
  cheatStages : Except String CheatStageData
  benchmarking : Except String BenchmarkingInfo
  recommendations : List String
  nowIso : String
  deriving Repr

/-- The try block of `analyzeVideoOffline` after the cache check
(offlineAnalysis.js lines 127-167): validate the test type, run Steps 1-7
in order, and compile the results object. -/
def runPipeline (env : OfflineEnv) (testType : String) : Except String AnalysisResults :=
  if (supportedTests.contains testType) = true then do
    let _frames ← env.frames
    let _poses ← env.poses
    let movement ← env.movement
    let performanceMetrics ← env.performance
    let cheatAnalysis := detectCheatAttempts env.cheatStages
    let benchmarking ← env.benchmarking
    pure { testType := testType
           performanceMetrics := performanceMetrics
           movementAnalysis := movement
           cheatAnalysis := cheatAnalysis
           benchmarking := benchmarking
           confidence := calculateConfidence performanceMetrics cheatAnalysis
           recommendations := env.recommendations
           timestamp := env.nowIso
           deviceInfoTimestamp := env.nowIso }
  else Except.error ("Unsupported test type: " ++ testType)

/-- `analyzeVideoOffline(videoUri, testType, userProfile)`
(offlineAnalysis.js lines 112-177): serve a cache hit; otherwise run the
pipeline, caching a success, and turning a thrown error into the structured
`{error: true, message, fallbackResults}` record. -/
def analyzeVideoOffline (env : OfflineEnv) (cache : AnalysisCache)
    (videoUri testType userProfile : String) : AnalysisOutcome × AnalysisCache :=
  let cacheKey := cacheKeyOf videoUri testType userProfile
  match cache.lookup cacheKey with
  | some cached => (AnalysisOutcome.success cached, cache)
  | none =>
    match runPipeline env testType with
    | Except.ok results =>
      (AnalysisOutcome.success results, setCache cache cacheKey results)
    | Except.error msg =>
      (AnalysisOutcome.failure msg (generateFallbackResults videoUri testType), cache)

/-! ## Concrete inputs used by counterexamples and witnesses -/

/-- A frame sequence whose brightness values are `1` followed by ten times
`3/5`: the mean is `7/11`, frame 0 deviates by `4/11 > 0.3`, yet the
brightness variance is `8/605 < 0.1`. -/
def cxBrightFrames : List CDFrame :=
  ⟨0, 0, ⟨1, 0, 0, 0, 0⟩⟩ ::
    (List.range 10).map (fun i => ⟨i + 1, 0, ⟨3/5, 0, 0, 0, 0⟩⟩)

/-- A frame-analysis record whose non-brightness checks all pass. -/
def quietFrameAnalysis (bc : BrightnessCheck) : FrameAnalysis :=
  ⟨bc, ⟨true, 0, 100/3, 0⟩, ⟨true, 0⟩, ⟨true, 40, 40, 0⟩, ⟨true, 10, 0⟩⟩

/-- A manipulation-check record with nothing detected. -/
def quietManipulation : ManipulationCheck :=
  ⟨⟨false, 500, 0⟩, ⟨false, 0, 0⟩, ⟨false, 0⟩, ⟨false, [], 0⟩⟩

/-- A movement-pattern record whose pattern matches the expectation. -/
def quietPattern : MovementPatternAnalysis :=
  ⟨⟨true, "repetitive", "repetitive", 1⟩, true, true⟩

/-- An assistance-check record with nothing detected. -/
def quietAssistance : AssistanceCheck :=
  ⟨⟨false, 1, 9/10⟩, ⟨false, 4/5⟩, ⟨false, 7/10⟩, ⟨true, 10, 0⟩⟩

/-- A frame-analysis record with every check triggered. -/
def allTrigFrameAnalysis : FrameAnalysis :=
  ⟨⟨false, 1, 1/2, 3⟩, ⟨false, 100, 100/3, 2⟩, ⟨true, 0⟩, ⟨false, 90, 40, 4⟩,
   ⟨false, 45, 3⟩⟩

/-- A manipulation-check record with every check triggered. -/
def allTrigManipulation : ManipulationCheck :=
  ⟨⟨true, 50, 1/2⟩, ⟨true, 700, 7/10⟩, ⟨false, 0⟩, ⟨true, [5, 12, 20], 3/5⟩⟩

/-- A movement-pattern record whose pattern mismatches the expectation. -/
def allTrigPattern : MovementPatternAnalysis :=
  ⟨⟨false, "repetitive", "static", 0⟩, false, false⟩

/-- An assistance-check record with every check triggered. -/
def allTrigAssistance : AssistanceCheck :=
  ⟨⟨true, 2, 9/10⟩, ⟨true, 4/5⟩, ⟨true, 7/10⟩, ⟨false, 40, 0⟩⟩

/-! ## Claim C2: suspicion score bounds, zero-iff, clamping -/

/-- The published suspicion score is the clamped raw total. -/
theorem combine_suspicionScore_eq (fa : FrameAnalysis) (mc : ManipulationCheck)
    (mp : MovementPatternAnalysis) (ac : AssistanceCheck) :
    (combineAnalysisResults fa mc mp ac).suspicionScore =
      min 1 (rawSuspicionTotal fa mc mp ac) := rfl

/-- Claim C2: for every combination of check outcomes the combined suspicion
score lies in `[0, 1]`; it is `0` exactly when no integrity check triggered;
and when all seven checks trigger the raw weight total is `1.25` but the
published score is clamped to `1`. -/
theorem suspicion_score_bounds_c2 (fa : FrameAnalysis) (mc : ManipulationCheck)
    (mp : MovementPatternAnalysis) (ac : AssistanceCheck) :
    (0 ≤ (combineAnalysisResults fa mc mp ac).suspicionScore ∧
      (combineAnalysisResults fa mc mp ac).suspicionScore ≤ 1) ∧
    ((combineAnalysisResults fa mc mp ac).suspicionScore = 0 ↔
      (fa.brightnessConsistency.isConsistent = true ∧
       fa.frameRateConsistency.isConsistent = true ∧
       mc.compressionArtifacts.hasArtifacts = false ∧
       mc.splicingDetection.hasSplicing = false ∧
       mp.patternConsistency.isConsistent = true ∧
       ac.multiplePeople.hasMultiplePeople = false ∧
       ac.environmentalConsistency.isConsistent = true)) ∧
    (fa.brightnessConsistency.isConsistent = false →
     fa.frameRateConsistency.isConsistent = false →
     mc.compressionArtifacts.hasArtifacts = true →
     mc.splicingDetection.hasSplicing = true →
     mp.patternConsistency.isConsistent = false →
     ac.multiplePeople.hasMultiplePeople = true →
     ac.environmentalConsistency.isConsistent = false →
     rawSuspicionTotal fa mc mp ac = 125/100 ∧
       (combineAnalysisResults fa mc mp ac).suspicionScore = 1) := by
  obtain ⟨⟨b1, v1, a1, s1⟩, ⟨b2, v2, a2, s2⟩, rc, mo, co⟩ := fa
  obtain ⟨⟨b3, e3, c3⟩, ec, mdc, ⟨b4, sp4, c4⟩⟩ := mc
  obtain ⟨⟨b5, ep5, ap5, c5⟩, sc5, an5⟩ := mp
  obtain ⟨⟨b6, p6, c6⟩, ob6, au6, ⟨b7, av7, c7⟩⟩ := ac
  cases b1 <;> cases b2 <;> cases b3 <;> cases b4 <;> cases b5 <;>
    cases b6 <;> cases b7 <;>
    simp only [combine_suspicionScore_eq, rawSuspicionTotal] <;>
    norm_num [min_def]

/-- Witness for C2 at a concrete all-triggered input: the raw total is
exactly `1.25` and the clamped score is exactly `1`. -/
theorem suspicion_score_bounds_c2_witness :
    rawSuspicionTotal allTrigFrameAnalysis allTrigManipulation allTrigPattern
        allTrigAssistance = 125/100 ∧
      (combineAnalysisResults allTrigFrameAnalysis allTrigManipulation
        allTrigPattern allTrigAssistance).suspicionScore = 1 :=
  (suspicion_score_bounds_c2 allTrigFrameAnalysis allTrigManipulation
    allTrigPattern allTrigAssistance).2.2 rfl rfl rfl rfl rfl rfl rfl

/-! ## Claim C5: what actually triggers the brightness check -/

/-- Counterexample to claim C5: in `cxBrightFrames`, frame 0 (brightness 1)
deviates from the mean by more than `0.3`, yet the brightness check still
reports consistent (its variance `8/605` is below `0.1`), and with every
other check clean the combined suspicion score is `0` — the claimed
single-frame-deviation trigger does not exist. -/
theorem brightness_deviation_no_trigger_c5_counterexample :
    3/10 < |1 - (checkBrightnessConsistency cxBrightFrames).avgBrightness| ∧
    (checkBrightnessConsistency cxBrightFrames).suspiciousFrames = 1 ∧
    (checkBrightnessConsistency cxBrightFrames).isConsistent = true ∧
    (combineAnalysisResults (quietFrameAnalysis (checkBrightnessConsistency cxBrightFrames))
      quietManipulation quietPattern quietAssistance).suspicionScore = 0 := by
  with_unfolding_all decide

/-- Claim C5 as amended: the brightness-consistency check is triggered (and
only then contributes its 0.15 weight in `combineAnalysisResults`) exactly
when the brightness variance is at least `0.1`; a frame deviating more than
`0.3` from the mean only feeds the reported `suspiciousFrames` count. -/
theorem brightness_trigger_c5_amended (frames : List CDFrame) :
    ((checkBrightnessConsistency frames).isConsistent = false ↔
      1/10 ≤ (checkBrightnessConsistency frames).variance) ∧
    (checkBrightnessConsistency frames).suspiciousFrames =
      ((frames.map (fun f => f.data.brightness)).filter
        (fun b => decide (3/10 <
          |b - (checkBrightnessConsistency frames).avgBrightness|))).length := by
  constructor
  · have h : (checkBrightnessConsistency frames).isConsistent =
        decide ((checkBrightnessConsistency frames).variance < 1/10) := rfl
    rw [h, decide_eq_false_iff_not, not_lt]
  · rfl

/-! ## Claim C6: quality banding -/

/-- Counterexample to claim C6: an overall score of `0.85` is reported as
`excellent` (the code's threshold is a strict `> 0.8`), where the claim
places `[0.75, 0.90)` in `good`; and `0.50` is reported as
`needs-improvement`, where the claim requires an `average` band. -/
theorem quality_band_c6_counterexample :
    assessMovementQualityBand (85/100) = "excellent" ∧
    assessMovementQualityBand (1/2) = "needs-improvement" := by
  with_unfolding_all decide

/-- Claim C6 as amended: the band is `excellent` for scores strictly above
`0.8`, `good` for scores in `(0.6, 0.8]`, and `needs-improvement` for
scores at most `0.6`; there is no `average` band and the boundaries are
exclusive on the lower side. -/
theorem quality_band_c6_amended (s : ℚ) :
    (8/10 < s → assessMovementQualityBand s = "excellent") ∧
    (6/10 < s → s ≤ 8/10 → assessMovementQualityBand s = "good") ∧
    (s ≤ 6/10 → assessMovementQualityBand s = "needs-improvement") := by
  refine ⟨fun h1 => ?_, fun h2 h3 => ?_, fun h4 => ?_⟩ <;>
    simp only [assessMovementQualityBand] <;> split_ifs <;>
      first | rfl | linarith

/-- Witness for C6 at the three concrete scores `0.9`, `0.7` and `0.5`. -/
theorem quality_band_c6_witness :
    assessMovementQualityBand (9/10) = "excellent" ∧
    assessMovementQualityBand (7/10) = "good" ∧
    assessMovementQualityBand (1/2) = "needs-improvement" :=
  ⟨(quality_band_c6_amended (9/10)).1 (by norm_num),
   (quality_band_c6_amended (7/10)).2.1 (by norm_num) (by norm_num),
   (quality_band_c6_amended (1/2)).2.2 (by norm_num)⟩

/-! ## Claim C7: the timing sub-score -/

/-- Counterexample to claim C7: a two-frame vertical-jump sequence lasting
exactly half the expected duration (`1000 / 2000 = 0.5`, inside the claimed
inclusive band `[0.5, 2.0]`) scores `0.8`, not `1` — the code's band is
strict. -/
theorem timing_band_c7_counterexample :
    assessTiming [⟨0, ⟨none, none⟩⟩, ⟨1000, ⟨none, none⟩⟩] "vertical-jump" = 8/10 := by
  with_unfolding_all decide

/-- Claim C7 as amended: the timing sub-score is `1` exactly when the ratio
of total duration to the expected duration lies strictly between `0.5` and
`2.0`, and is the fixed penalty `0.8` otherwise (so it is never below
`0.8`, and the band edges themselves are penalized). -/
theorem timing_band_c7_amended (poseData : List PoseFrame) (testType : String) :
    (assessTiming poseData testType = 1 ↔
      (1/2 < totalDurationOf poseData / expectedDurations testType ∧
        totalDurationOf poseData / expectedDurations testType < 2)) ∧
    (assessTiming poseData testType = 1 ∨ assessTiming poseData testType = 8/10) := by
  unfold assessTiming
  split_ifs with h
  · exact ⟨⟨fun _ => h, fun _ => rfl⟩, Or.inl rfl⟩
  · exact ⟨⟨fun h1 => absurd h1 (by norm_num), fun h2 => absurd h2 h⟩, Or.inr rfl⟩

/-! ## Claim C3: the confidence formula -/

/-- Counterexample to claim C3: with a movement-quality overall score of
exactly `0.8` and a non-suspicious verdict, the computed confidence is
`0.8`, not the `0.9` the claim's inclusive `≥ 0.8` bonus would give — the
code's bonus condition is the strict `> 0.8`. -/
theorem confidence_c3_counterexample :
    calculateConfidence ⟨10, 8/10, 2900, 8⟩ ⟨false, 0, [], [], none, none⟩ = 8/10 ∧
    calculateConfidence ⟨10, 8/10, 2900, 8⟩ ⟨false, 0, [], [], none, none⟩ ≠ 9/10 := by
  with_unfolding_all decide

/-- Case analysis of `calculateConfidence`: the four reachable values. -/
theorem calculateConfidence_cases (pm : PerformanceMetrics) (ca : CheatResult) :
    calculateConfidence pm ca =
      if ca.isSuspicious = true then
        if 8/10 < pm.movementQuality then 6/10 else 1/2
      else
        if 8/10 < pm.movementQuality then 9/10 else 8/10 := by
  simp only [calculateConfidence]
  split_ifs with h1 h2 h2 <;> norm_num [min_def, max_def]

/-- Claim C3 as amended: confidence starts at `0.8`, loses `0.3` when the
integrity verdict is suspicious, gains `0.1` when the movement-quality
overall score is strictly greater than `0.8`, and is clamped to `[0, 1]`
(the four reachable values are already inside the interval). -/
theorem confidence_c3_amended (pm : PerformanceMetrics) (ca : CheatResult) :
    (0 ≤ calculateConfidence pm ca ∧ calculateConfidence pm ca ≤ 1) ∧
    (ca.isSuspicious = false → pm.movementQuality ≤ 8/10 →
      calculateConfidence pm ca = 8/10) ∧
    (ca.isSuspicious = false → 8/10 < pm.movementQuality →
      calculateConfidence pm ca = 9/10) ∧
    (ca.isSuspicious = true → pm.movementQuality ≤ 8/10 →
      calculateConfidence pm ca = 1/2) ∧
    (ca.isSuspicious = true → 8/10 < pm.movementQuality →
      calculateConfidence pm ca = 6/10) := by
  rw [calculateConfidence_cases pm ca]
  split_ifs with h1 h2 h2 <;>
    refine ⟨by constructor <;> norm_num, ?_, ?_, ?_, ?_⟩ <;> intro ha hq <;>
      first | rfl | (exfalso; linarith) | (exfalso; simp_all)

/-- Witness for C3 at concrete inputs: quality `0.9`, not suspicious gives
confidence `0.9`. -/
theorem confidence_c3_witness :
    calculateConfidence ⟨12, 9/10, 3000, 10⟩ ⟨false, 0, [], [], none, none⟩ = 9/10 :=
  (confidence_c3_amended ⟨12, 9/10, 3000, 10⟩ ⟨false, 0, [], [], none, none⟩).2.2.1
    rfl (by norm_num)

/-! ## Claim C10: fail-open on integrity-analysis errors -/

/-- Claim C10: whenever any internal step of cheat detection throws, the
returned record is the fixed fail-open result: not suspicious, suspicion
score `0`, issue list `["Analysis failed"]` — an integrity-analysis failure
can never classify a recording as suspicious. -/
theorem cheat_fail_open_c10 (stages : Except String CheatStageData)
    (h : ∃ e, stages = Except.error e) :
    (detectCheatAttempts stages).isSuspicious = false ∧
    (detectCheatAttempts stages).suspicionScore = 0 ∧
    (detectCheatAttempts stages).detectedIssues = ["Analysis failed"] ∧
    (detectCheatAttempts stages).recommendations = ["Please try recording again"] := by
  obtain ⟨e, rfl⟩ := h
  exact ⟨rfl, rfl, rfl, rfl⟩

/-- Witness for C10 at a concrete thrown error. -/
theorem cheat_fail_open_c10_witness :
    (detectCheatAttempts (Except.error "Failed to extract frames from video")).isSuspicious
        = false ∧
    (detectCheatAttempts (Except.error "Failed to extract frames from video")).suspicionScore
        = 0 ∧
    (detectCheatAttempts (Except.error "Failed to extract frames from video")).detectedIssues
        = ["Analysis failed"] ∧
    (detectCheatAttempts
        (Except.error "Failed to extract frames from video")).recommendations
        = ["Please try recording again"] :=
  cheat_fail_open_c10 _ ⟨_, rfl⟩

/-! ## Claim C4: the analysis boundary never raises -/

/-- Claim C4: for every combination of internal stage outcomes (any stage
may throw) and any input, the entry point returns a structured outcome: a
compiled success, or a failure record whose fallback results carry
confidence `0` and the `fallback` marker — never an escaping exception. -/
theorem analysis_boundary_c4 (env : OfflineEnv) (cache : AnalysisCache)
    (videoUri testType userProfile : String) :
    (∃ r, (analyzeVideoOffline env cache videoUri testType userProfile).1 =
      AnalysisOutcome.success r) ∨
    (∃ msg fb, (analyzeVideoOffline env cache videoUri testType userProfile).1 =
        AnalysisOutcome.failure msg fb ∧ fb.confidence = 0 ∧ fb.fallback = true) := by
  simp only [analyzeVideoOffline]
  cases hlk : List.lookup (cacheKeyOf videoUri testType userProfile) cache with
  | some cached => exact Or.inl ⟨cached, rfl⟩
  | none =>
    cases hrp : runPipeline env testType with
    | ok results => exact Or.inl ⟨results, rfl⟩
    | error msg =>
      exact Or.inr ⟨msg, generateFallbackResults videoUri testType, rfl, rfl, rfl⟩

/-! ## Claim C9: purity of the entry point -/

/-- The cheat stage data of a clean recording, used by the concrete runs. -/
def cxStagesOk : CheatStageData :=
  ⟨quietFrameAnalysis ⟨true, 0, 1/2, 0⟩, quietManipulation, quietPattern,
   quietAssistance⟩

/-- A concrete environment in which every stage succeeds, wall clock at
`00:00:00`. -/
def cxEnvA : OfflineEnv :=
  { frames := Except.ok []
    poses := Except.ok []
    movement := Except.ok ⟨30, 7/10, 10, 7/10⟩
    performance := Except.ok ⟨10, 7/10, 2900, 7⟩
    cheatStages := Except.ok cxStagesOk
    benchmarking := Except.ok ⟨"16-18", "male", 7⟩
    recommendations := ["Keep up the good work!"]
    nowIso := "2024-01-01T00:00:00.000Z" }

/-- The same hidden inputs five seconds later: only the wall clock moved. -/
def cxEnvB : OfflineEnv := { cxEnvA with nowIso := "2024-01-01T00:00:05.000Z" }

/-- The timestamp carried by an analysis outcome (empty for a failure). -/
def outcomeTimestamp : AnalysisOutcome → String
  | AnalysisOutcome.success r => r.timestamp
  | AnalysisOutcome.failure _ _ => ""

/-- Counterexample to claim C9: the same input (`video.mp4`, `sit-ups`,
same profile) analysed with an empty cache at two different wall-clock
instants yields two different results — the result embeds
`new Date().toISOString()`, so hidden state does influence the output. -/
theorem analysis_not_pure_c9_counterexample :
    (analyzeVideoOffline cxEnvA [] "video.mp4" "sit-ups" "age30").1 ≠
      (analyzeVideoOffline cxEnvB [] "video.mp4" "sit-ups" "age30").1 := by
  intro hcontra
  have h1 : outcomeTimestamp (analyzeVideoOffline cxEnvA [] "video.mp4" "sit-ups"
      "age30").1 = "2024-01-01T00:00:00.000Z" := rfl
  have h2 : outcomeTimestamp (analyzeVideoOffline cxEnvB [] "video.mp4" "sit-ups"
      "age30").1 = "2024-01-01T00:00:05.000Z" := rfl
  have h3 := congrArg outcomeTimestamp hcontra
  rw [h1, h2] at h3
  exact absurd h3 (by decide)

/-- Claim C9 as amended: a repeated run returns a bit-identical result only
because the first run stored its result in the analysis cache — after a
first successful run, a second run on the same input returns exactly the
cached result, whatever its own hidden inputs (clock, simulated frames)
are. -/
theorem analysis_cache_c9_amended (env1 env2 : OfflineEnv) (cache2 : AnalysisCache)
    (videoUri testType userProfile : String) (r : AnalysisResults)
    (h : analyzeVideoOffline env1 [] videoUri testType userProfile =
      (AnalysisOutcome.success r, cache2)) :
    analyzeVideoOffline env2 cache2 videoUri testType userProfile =
      (AnalysisOutcome.success r, cache2) := by
  simp only [analyzeVideoOffline, List.lookup] at h
  cases hrp : runPipeline env1 testType with
  | error msg =>
    rw [hrp] at h
    simp at h
  | ok results =>
    rw [hrp] at h
    simp only [Prod.mk.injEq, AnalysisOutcome.success.injEq] at h
    obtain ⟨hr, hc⟩ := h
    subst hr
    rw [← hc]
    simp only [analyzeVideoOffline, setCache, maxCacheSize]
    norm_num

/-- The result record compiled by the concrete first run `cxEnvA`. -/
def cxResultsA : AnalysisResults :=
  { testType := "sit-ups"
    performanceMetrics := ⟨10, 7/10, 2900, 7⟩
    movementAnalysis := ⟨30, 7/10, 10, 7/10⟩
    cheatAnalysis :=
      { isSuspicious := false
        suspicionScore := 0
        detectedIssues := []
        recommendations := ["Video analysis completed successfully"]
        detailedAnalysis := some cxStagesOk
        errorMessage := none }
    benchmarking := ⟨"16-18", "male", 7⟩
    confidence := 4/5
    recommendations := ["Keep up the good work!"]
    timestamp := "2024-01-01T00:00:00.000Z"
    deviceInfoTimestamp := "2024-01-01T00:00:00.000Z" }

/-- Witness for C9: after the concrete first run under `cxEnvA` cached its
result, a second run under the later clock `cxEnvB` returns the first
run's result unchanged. -/
theorem analysis_cache_c9_witness :
    analyzeVideoOffline cxEnvB
        [(cacheKeyOf "video.mp4" "sit-ups" "age30", cxResultsA)]
        "video.mp4" "sit-ups" "age30" =
      (AnalysisOutcome.success cxResultsA,
        [(cacheKeyOf "video.mp4" "sit-ups" "age30", cxResultsA)]) :=
  analysis_cache_c9_amended cxEnvA cxEnvB
    [(cacheKeyOf "video.mp4" "sit-ups" "age30", cxResultsA)]
    "video.mp4" "sit-ups" "age30" cxResultsA (by with_unfolding_all rfl)

/-! ## Claim C1: repetition count and complete two-phase cycles -/

/-- The phase-name sequence `down, up, down, up, ...` of length `n`. -/
def altList (n : ℕ) : List String :=
  (List.range n).map (fun i => if i % 2 = 0 then "down" else "up")

/-- The loop invariant of `identifyRepetitivePhases`: the recorded phases
alternate `down, up, down, ...`, and the loop is in the up phase exactly
when an even number of phases has been recorded. -/
def repInv (st : Bool × ℕ × List MovementPhase) : Prop :=
  st.2.2.map (fun p => p.phase) = altList st.2.2.length ∧
    (st.1 = true ↔ st.2.2.length % 2 = 0)

theorem altList_succ (n : ℕ) :
    altList (n + 1) = altList n ++ [if n % 2 = 0 then "down" else "up"] := by
  simp [altList, List.range_succ]

theorem altList_add_two (n : ℕ) :
    altList (n + 2) = "down" :: "up" :: altList n := by
  simp only [altList, List.range_succ_eq_map, List.map_cons, List.map_map]
  norm_num
  intro i _
  have h2 : (i + 1 + 1) % 2 = i % 2 := by omega
  simp [h2]

/-- Each loop iteration preserves the invariant. -/
theorem repStep_inv (pd : List PoseFrame) (tt : String)
    (st : Bool × ℕ × List MovementPhase) (i : ℕ) (h : repInv st) :
    repInv (repStep pd tt st i) := by
  obtain ⟨b, ps, phs⟩ := st
  obtain ⟨h1, h2⟩ := h
  unfold repStep
  dsimp only
  split_ifs with hc1 hc2
  · obtain ⟨hb, _⟩ := hc1
    have hlen : phs.length % 2 = 0 := h2.mp hb
    constructor
    · simp only [repInv, List.map_append, List.length_append, List.map_cons,
        List.map_nil, List.length_cons, List.length_nil]
      rw [h1]
      have hpl : phs.length + (0 + 1) = phs.length + 1 := by omega
      rw [hpl, altList_succ]
      simp [hlen]
    · simp only [repInv, List.length_append, List.length_cons, List.length_nil]
      constructor
      · intro hfalse
        exact absurd hfalse (by simp)
      · intro hmod
        omega
  · obtain ⟨hb, _⟩ := hc2
    have hlen : phs.length % 2 = 1 := by
      rcases Nat.mod_two_eq_zero_or_one phs.length with he | ho
      · exact absurd (h2.mpr he) (by simp [hb])
      · exact ho
    constructor
    · simp only [repInv, List.map_append, List.length_append, List.map_cons,
        List.map_nil, List.length_cons, List.length_nil]
      rw [h1]
      have hpl : phs.length + (0 + 1) = phs.length + 1 := by omega
      rw [hpl, altList_succ]
      simp [hlen]
    · simp only [repInv, List.length_append, List.length_cons, List.length_nil]
      constructor
      · intro _
        omega
      · intro _
        trivial
  · exact ⟨h1, h2⟩

/-- Folding the loop body over any index list preserves the invariant. -/
theorem foldl_repStep_inv (pd : List PoseFrame) (tt : String) :
    ∀ (idxs : List ℕ) (st : Bool × ℕ × List MovementPhase),
      repInv st → repInv (idxs.foldl (repStep pd tt) st)
  | [], _, h => h
  | i :: rest, st, h =>
    foldl_repStep_inv pd tt rest (repStep pd tt st i) (repStep_inv pd tt st i h)

/-- The identified phase sequence alternates `down, up, down, ...`. -/
theorem identifyRepetitivePhases_alternating (pd : List PoseFrame) (tt : String) :
    (identifyRepetitivePhases pd tt).map (fun p => p.phase) =
      altList (identifyRepetitivePhases pd tt).length :=
  (foldl_repStep_inv pd tt ((List.range pd.length).drop 1) (true, 0, [])
    ⟨rfl, by simp⟩).1

/-- The number of complete adjacent `down`+`up` cycles in a phase sequence,
pairing from the front. -/
def completeDownUpCycles : List MovementPhase → ℕ
  | p :: q :: rest =>
    (if p.phase = "down" ∧ q.phase = "up" then 1 else 0) + completeDownUpCycles rest
  | _ => 0

/-- On an alternating phase sequence, the complete `down`+`up` cycles are
exactly the floor of half the number of phases. -/
theorem completeDownUpCycles_of_alternating :
    ∀ (l : List MovementPhase),
      l.map (fun p => p.phase) = altList l.length →
      completeDownUpCycles l = l.length / 2
  | [], _ => by simp [completeDownUpCycles]
  | [_], _ => by simp [completeDownUpCycles]
  | p :: q :: rest, h => by
    have hlen : (p :: q :: rest).length = rest.length + 2 := rfl
    rw [hlen] at h ⊢
    rw [altList_add_two] at h
    simp only [List.map_cons, List.cons.injEq] at h
    obtain ⟨hp, hq, hrest⟩ := h
    have ih := completeDownUpCycles_of_alternating rest hrest
    have hstep : completeDownUpCycles (p :: q :: rest) =
        1 + completeDownUpCycles rest := by
      simp [completeDownUpCycles, hp, hq]
    rw [hstep, ih]
    omega

/-- Claim C1: for the cyclic test kinds, the repetition count equals the
number of complete `down`+`up` cycles in the identified phase sequence,
which is `floor(numberOfPhases / 2)`; an odd trailing phase never
increments the count. -/
theorem repetition_count_c1 (poseData : List PoseFrame) (testType : String)
    (h : testType = "sit-ups" ∨ testType = "push-ups") :
    countRepetitions poseData testType =
      completeDownUpCycles (identifyRepetitivePhases poseData testType) ∧
    countRepetitions poseData testType =
      (identifyRepetitivePhases poseData testType).length / 2 ∧
    ((identifyRepetitivePhases poseData testType).length % 2 = 1 →
      countRepetitions poseData testType =
        ((identifyRepetitivePhases poseData testType).length - 1) / 2) := by
  have hct : countRepetitions poseData testType =
      countRepetitiveMovements poseData testType := by
    rcases h with rfl | rfl <;> rfl
  have hcyc := completeDownUpCycles_of_alternating _
    (identifyRepetitivePhases_alternating poseData testType)
  refine ⟨?_, ?_, fun hodd => ?_⟩
  · rw [hct, hcyc]
    rfl
  · exact hct
  · rw [hct]
    unfold countRepetitiveMovements
    omega

/-- A sit-ups pose sequence producing three phases (down, up, down): the
trailing unmatched `down` leaves the count at one. -/
def cxOddPhases : List PoseFrame :=
  [⟨0, ⟨some 90, none⟩⟩, ⟨1000, ⟨some 50, none⟩⟩, ⟨2000, ⟨some 130, none⟩⟩,
   ⟨3000, ⟨some 50, none⟩⟩]

/-- Witness for C1 on a concrete sequence with an odd number (three) of
identified phases. -/
theorem repetition_count_c1_witness :
    countRepetitions cxOddPhases "sit-ups" =
      completeDownUpCycles (identifyRepetitivePhases cxOddPhases "sit-ups") ∧
    countRepetitions cxOddPhases "sit-ups" =
      (identifyRepetitivePhases cxOddPhases "sit-ups").length / 2 ∧
    countRepetitions cxOddPhases "sit-ups" =
      ((identifyRepetitivePhases cxOddPhases "sit-ups").length - 1) / 2 := by
  have h := repetition_count_c1 cxOddPhases "sit-ups" (Or.inl rfl)
  exact ⟨h.1, h.2.1, h.2.2 (by with_unfolding_all decide)⟩

/-! ## Claim C8: no cycle-duration plausibility window -/

/-- A sit-ups sequence completing one full down+up cycle in two
milliseconds — far below any plausible minimum cycle duration. -/
def cxFastCycle : List PoseFrame :=
  [⟨0, ⟨some 90, none⟩⟩, ⟨1, ⟨some 50, none⟩⟩, ⟨2, ⟨some 130, none⟩⟩]

/-- A sit-ups sequence completing one full down+up cycle in two hours —
far above any plausible maximum cycle duration. -/
def cxSlowCycle : List PoseFrame :=
  [⟨0, ⟨some 90, none⟩⟩, ⟨3600000, ⟨some 50, none⟩⟩, ⟨7200000, ⟨some 130, none⟩⟩]

/-- Counterexample to claim C8: a 2-millisecond cycle (phase durations
`0.001 s` each) and a 2-hour cycle (phase durations `3600 s` each) are both
counted as one repetition — no `[minCycleMs, maxCycleMs]` window exists
that accepts both while rejecting too-fast or too-slow cycles. -/
theorem cycle_window_c8_counterexample :
    countRepetitiveMovements cxFastCycle "sit-ups" = 1 ∧
    (identifyRepetitivePhases cxFastCycle "sit-ups").map (fun p => p.duration) =
      [1/1000, 1/1000] ∧
    countRepetitiveMovements cxSlowCycle "sit-ups" = 1 ∧
    (identifyRepetitivePhases cxSlowCycle "sit-ups").map (fun p => p.duration) =
      [3600, 3600] := by
  have hrF : ((List.range (cxFastCycle.length)).drop 1) = [1, 2] := by decide
  have hrS : ((List.range (cxSlowCycle.length)).drop 1) = [1, 2] := by decide
  refine ⟨?_, ?_, ?_, ?_⟩
  · norm_num [countRepetitiveMovements, identifyRepetitivePhases, hrF, repStep,
      repAngleOf, jsAngleOr90, cxFastCycle, List.getD, List.foldl]
  · norm_num [identifyRepetitivePhases, hrF, repStep, repAngleOf, jsAngleOr90,
      cxFastCycle, List.getD, List.foldl]
  · norm_num [countRepetitiveMovements, identifyRepetitivePhases, hrS, repStep,
      repAngleOf, jsAngleOr90, cxSlowCycle, List.getD, List.foldl]
  · norm_num [identifyRepetitivePhases, hrS, repStep, repAngleOf, jsAngleOr90,
      cxSlowCycle, List.getD, List.foldl]

/-- Claim C8 as amended: the count is blind to phase durations — any two
pose sequences whose identified phase sequences have the same length get
the same repetition count, so no cycle is ever rejected for being too fast
or too slow. -/
theorem cycle_count_duration_blind_c8_amended (pd1 pd2 : List PoseFrame)
    (tt1 tt2 : String)
    (h : (identifyRepetitivePhases pd1 tt1).length =
      (identifyRepetitivePhases pd2 tt2).length) :
    countRepetitiveMovements pd1 tt1 = countRepetitiveMovements pd2 tt2 := by
  unfold countRepetitiveMovements
  rw [h]

/-- Witness for C8: the 2-millisecond and the 2-hour cycle get the same
count. -/
theorem cycle_count_duration_blind_c8_witness :
    countRepetitiveMovements cxFastCycle "sit-ups" =
      countRepetitiveMovements cxSlowCycle "sit-ups" :=
  cycle_count_duration_blind_c8_amended cxFastCycle cxSlowCycle "sit-ups" "sit-ups"
    (by with_unfolding_all decide)

end SportsAnalysis
